import Mathlib

/-!
Verification development for the shopping-list REST API.

The definitions below are a shallow embedding of the Go source:
`src/main.go` (the repository-backed variant: handlers, auth middleware,
CORS middleware, LRU response cache wiring),
`src/repository/shopping_list_repository.go`,
`src/repository/session_repository.go`,
`src/database/sql/shopping_list.sql` and the sessions SQL.

Machine integers do not occur; Go strings are modelled by `String`,
Go slices by `List`, timestamps by `Int`, and fallible operations by
`Option`.  A Go runtime panic (nil-pointer dereference, slice index out
of range) is modelled by an explicit `none` / `panicked` outcome.
-/

/-- The shopping-list record, as stored by the List Store and returned by
every query of `src/database/sql/shopping_list.sql`
(`id, name, items, created_at, updated_at`).  The id is the canonical
textual form of the UUID primary key; timestamps are abstract instants. -/
structure ShoppingList where
  id : String
  name : String
  items : List String
  createdAt : Int
  updatedAt : Int
deriving DecidableEq, Repr

/-- A row of the `sessions` table (`token, username, expires_at`; the
surrogate id and audit timestamps are irrelevant to every claim). -/
structure SessionRow where
  token : String
  username : String
  expiresAt : Int
deriving DecidableEq, Repr

/-- A static user of the in-memory `allUsers` table in `src/main.go`. -/
structure User where
  role : String
  username : String
  password : String
deriving DecidableEq, Repr

/-- The `allUsers` map of `src/main.go`: exactly the two fixed users;
a Go map lookup of any other key yields the zero value (nil), modelled
as `none`. -/
def allUsers : String → Option User
  | "admin" => some ⟨"admin", "admin", "password"⟩
  | "user" => some ⟨"user", "user", "password"⟩
  | _ => none

/-- `GetSessionByToken` of the sessions SQL
(`SELECT ... FROM sessions WHERE token = $1`, a `:one` query): the row
whose token matches, `none` when no row matches.  Note the query does
not constrain `expires_at`. -/
def GetSessionByToken (sessions : List SessionRow) (tok : String) :
    Option SessionRow :=
  sessions.find? (fun s => s.token == tok)

/-- Go `s[i:]` on a string: the suffix from byte `i`, but a runtime panic
(`none`) when `i` exceeds the length.  (The headers exercised by the
claims are ASCII, where Go byte indexing and character indexing agree.) -/
def goSliceFrom (s : String) (i : Nat) : Option String :=
  if i ≤ s.data.length then some (String.mk (s.data.drop i)) else none

/-- Go `strings.HasPrefix`. -/
def goHasPre (p s : String) : Bool :=
  p.data.isPrefixOf s.data

/-- Outcome of running an authorization middleware around a handler:
either the middleware wrote an error response itself, or it invoked the
wrapped handler (`passed`, carrying the extracted token), or the
goroutine panicked. -/
inductive AuthOutcome where
  | panicked : AuthOutcome
  | responded : Nat → AuthOutcome
  | passed : String → AuthOutcome
deriving DecidableEq, Repr

/-- `authRequired` of `src/main.go`: requires the `Authorization` header
to start with `"Bearer"`, takes the byte suffix `token[7:]` (a panic when
the header is shorter than 7 bytes), and looks the token up in the
Session Store; a failed lookup responds 401, success invokes the wrapped
handler. -/
def authRequired (sessions : List SessionRow) (authHeader : String) :
    AuthOutcome :=
  if !(goHasPre "Bearer" authHeader) then .responded 401
  else
    match goSliceFrom authHeader 7 with
    | none => .panicked
    | some tok =>
      match GetSessionByToken sessions tok with
      | none => .responded 401
      | some _ => .passed tok

/-- `adminRequired` of `src/main.go`: `authRequired` composed with an
inner function that re-extracts `token[7:]`, re-reads the session, looks
the session username up in `allUsers` and dereferences the result
unconditionally (`user.Role` — a nil-pointer panic when the username is
not a key of `allUsers`), responding 403 when the role is not
`"admin"`. -/
def adminRequired (sessions : List SessionRow) (authHeader : String) :
    AuthOutcome :=
  match authRequired sessions authHeader with
  | .passed _ =>
    match goSliceFrom authHeader 7 with
    | none => .panicked
    | some tok =>
      match GetSessionByToken sessions tok with
      | none => .responded 401
      | some s =>
        match allUsers s.username with
        | none => .panicked
        | some u => if u.role != "admin" then .responded 403 else .passed tok
  | o => o

/-- The fixed-capacity LRU response cache
(`github.com/hashicorp/golang-lru/v2`, instantiated in `main` as
`lru.New[string, *db_queries.ShoppingList](128)`): an association list
with the most recently used entry first, plus the capacity. -/
structure LruCache where
  entries : List (String × ShoppingList)
  cap : Nat
deriving DecidableEq, Repr

/-- The capacity the server passes to `lru.New` in `main`. -/
def listsCacheCap : Nat := 128

/-- The freshly initialized lists cache of `main`. -/
def listsCacheNew : LruCache := ⟨[], listsCacheCap⟩

/-- `Cache.Contains`/presence of a key. -/
def lruContains (c : LruCache) (k : String) : Bool :=
  (c.entries.find? (fun e => e.1 == k)).isSome

/-- `Cache.Get`: on a hit returns the value and promotes the entry to
most-recently-used; on a miss leaves the cache unchanged. -/
def lruGet (c : LruCache) (k : String) : Option ShoppingList × LruCache :=
  match c.entries.find? (fun e => e.1 == k) with
  | some e =>
    (some e.2, ⟨(k, e.2) :: c.entries.filter (fun x => x.1 != k), c.cap⟩)
  | none => (none, c)

/-- `Cache.Add`: inserts (or updates) the key as most-recently-used and
evicts the least-recently-used entry when the size exceeds the
capacity. -/
def lruAdd (c : LruCache) (k : String) (v : ShoppingList) : LruCache :=
  let es := (k, v) :: c.entries.filter (fun x => x.1 != k)
  ⟨if c.cap < es.length then es.dropLast else es, c.cap⟩

/-- `Cache.Remove`: deletes the entry for the key, if any. -/
def lruRemove (c : LruCache) (k : String) : LruCache :=
  ⟨c.entries.filter (fun x => x.1 != k), c.cap⟩

/-- One hexadecimal digit, in either case (as accepted by
`github.com/google/uuid`.`Parse`). -/
def isHexChar (c : Char) : Bool :=
  ("0123456789abcdefABCDEF".toList).contains c

/-- `uuid.Parse` followed by the `pgtype.UUID` encoding, restricted to
the canonical 36-character hyphenated textual form (the only form the
server ever emits): validates the shape and yields the lower-case
canonical string used as the store key; `none` models the
`invalid uuid` error. -/
def parseUUID (s : String) : Option String :=
  let cs := s.toList
  if cs.length = 36 ∧
      (List.range 36).all (fun i =>
        if i = 8 ∨ i = 13 ∨ i = 18 ∨ i = 23 then cs.getD i ' ' = '-'
        else isHexChar (cs.getD i ' ') = true) then
    some (String.mk (cs.map Char.toLower))
  else none

/-- `GetShoppingListByID` (repository + SQL
`SELECT ... FROM shopping_lists WHERE id = $1`): `none` on an invalid
uuid or a missing row, both of which the repository surfaces as an
error. -/
def GetShoppingListByID (rows : List ShoppingList) (id : String) :
    Option ShoppingList :=
  (parseUUID id).bind (fun uid => rows.find? (fun r => r.id == uid))

/-- SQL `UpdateShoppingListByID`: full replace of name and items of the
matching row, refreshing `updated_at`; a `:one` query, so `none` when no
row matches. Returns the updated row and the updated table. -/
def sqlUpdateShoppingListByID (rows : List ShoppingList) (uid : String)
    (name : String) (items : List String) (now : Int) :
    Option (ShoppingList × List ShoppingList) :=
  match rows.find? (fun r => r.id == uid) with
  | none => none
  | some r =>
    let r2 := { r with name := name, items := items, updatedAt := now }
    some (r2, rows.map (fun x => if x.id == uid then r2 else x))

/-- SQL `ShoppingListPartialUpdate`:
`SET name = COALESCE(narg(name), name), items = COALESCE(narg(items), items)`,
refreshing `updated_at`; `none` when no row matches. -/
def sqlShoppingListPartialUpdate (rows : List ShoppingList) (uid : String)
    (nameArg : Option String) (itemsArg : Option (List String)) (now : Int) :
    Option (ShoppingList × List ShoppingList) :=
  match rows.find? (fun r => r.id == uid) with
  | none => none
  | some r =>
    let r2 := { r with name := nameArg.getD r.name,
                       items := itemsArg.getD r.items, updatedAt := now }
    some (r2, rows.map (fun x => if x.id == uid then r2 else x))

/-- SQL `PushItemToShoppingList`: `SET items = items || $2`, refreshing
`updated_at`; `none` when no row matches. -/
def sqlPushItemToShoppingList (rows : List ShoppingList) (uid : String)
    (pushed : List String) (now : Int) :
    Option (ShoppingList × List ShoppingList) :=
  match rows.find? (fun r => r.id == uid) with
  | none => none
  | some r =>
    let r2 := { r with items := r.items ++ pushed, updatedAt := now }
    some (r2, rows.map (fun x => if x.id == uid then r2 else x))

/-- Repository `UpdateShoppingListByID`: parses the path id as a uuid
(`none` on failure) and runs the full-update query. -/
def UpdateShoppingListByID (rows : List ShoppingList) (id : String)
    (name : String) (items : List String) (now : Int) :
    Option (ShoppingList × List ShoppingList) :=
  (parseUUID id).bind
    (fun uid => sqlUpdateShoppingListByID rows uid name items now)

/-- Repository `PartialUpdate`: parses the id, then binds the SQL null
arguments exactly as the Go code does — the name argument is non-null
only when the pointer is non-nil AND the string is nonempty, the items
argument is non-null exactly when the pointer is non-nil. -/
def PartialUpdate (rows : List ShoppingList) (id : String)
    (name : Option String) (items : Option (List String)) (now : Int) :
    Option (ShoppingList × List ShoppingList) :=
  (parseUUID id).bind (fun uid =>
    let nameArg := match name with
      | some s => if s != "" then some s else none
      | none => none
    sqlShoppingListPartialUpdate rows uid nameArg items now)

/-- Repository `PushItemToShoppingList`: parses the id and appends the
single item as a one-element array, server-side. -/
def PushItemToShoppingList (rows : List ShoppingList) (id : String)
    (item : String) (now : Int) :
    Option (ShoppingList × List ShoppingList) :=
  (parseUUID id).bind
    (fun uid => sqlPushItemToShoppingList rows uid [item] now)

/-- Repository `DeleteShoppingListByID`: parses the id (`none` = the
`invalid uuid` error) and runs the `:exec` DELETE, which succeeds even
when no row matches. -/
def DeleteShoppingListByID (rows : List ShoppingList) (id : String) :
    Option (List ShoppingList) :=
  (parseUUID id).bind
    (fun uid => some (rows.filter (fun r => !(r.id == uid))))

/-- UTF-8 encoding of one character, byte values as naturals
(the Go string-to-byte view used by `sha256.Sum256(data)`). -/
def utf8Bytes (c : Char) : List Nat :=
  let n := c.toNat
  if n < 128 then [n]
  else if n < 2048 then [192 + n / 64, 128 + n % 64]
  else if n < 65536 then [224 + n / 4096, 128 + n / 64 % 64, 128 + n % 64]
  else [240 + n / 262144, 128 + n / 4096 % 64, 128 + n / 64 % 64,
        128 + n % 64]

/-- The bytes of a string under UTF-8. -/
def strBytes (s : String) : List Nat :=
  s.data.flatMap utf8Bytes

/-- Truncation to a 32-bit word. -/
def w32 (x : Nat) : Nat := x % 4294967296

/-- 32-bit right rotation of a word. -/
def rotr32 (n x : Nat) : Nat := x / 2 ^ n + x % 2 ^ n * 2 ^ (32 - n)

/-- Integer cube root by bisection (used to derive the SHA-256 round
constants from the first 64 primes, as the FIPS 180-4 standard does). -/
def icbrtGo (n : Nat) : Nat → Nat → Nat → Nat
  | 0, lo, _ => lo
  | fuel + 1, lo, hi =>
    if hi ≤ lo + 1 then lo
    else
      let mid := (lo + hi) / 2
      if mid * mid * mid ≤ n then icbrtGo n fuel mid hi
      else icbrtGo n fuel lo mid

/-- Integer cube root. -/
def icbrt (n : Nat) : Nat := icbrtGo n 200 0 (n + 1)

/-- The first 64 primes. -/
def first64Primes : List Nat :=
  [2, 3, 5, 7, 11, 13, 17, 19, 23, 29, 31, 37, 41, 43, 47, 53,
   59, 61, 67, 71, 73, 79, 83, 89, 97, 101, 103, 107, 109, 113, 127, 131,
   137, 139, 149, 151, 157, 163, 167, 173, 179, 181, 191, 193, 197, 199,
   211, 223, 227, 229, 233, 239, 241, 251, 257, 263, 269, 271, 277, 281,
   283, 293, 307, 311]

/-- SHA-256 round constants: the fractional bits of the cube roots of
the first 64 primes. -/
def sha256K : List Nat :=
  first64Primes.map (fun p => icbrt (p * 2 ^ 96) % 4294967296)

/-- SHA-256 initial hash value: the fractional bits of the square roots
of the first 8 primes. -/
def sha256H0 : List Nat :=
  (first64Primes.take 8).map (fun p => Nat.sqrt (p * 2 ^ 64) % 4294967296)

/-- SHA-256 small sigma 0. -/
def ssig0 (x : Nat) : Nat := rotr32 7 x ^^^ rotr32 18 x ^^^ x / 2 ^ 3

/-- SHA-256 small sigma 1. -/
def ssig1 (x : Nat) : Nat := rotr32 17 x ^^^ rotr32 19 x ^^^ x / 2 ^ 10

/-- SHA-256 big sigma 0. -/
def bsig0 (x : Nat) : Nat := rotr32 2 x ^^^ rotr32 13 x ^^^ rotr32 22 x

/-- SHA-256 big sigma 1. -/
def bsig1 (x : Nat) : Nat := rotr32 6 x ^^^ rotr32 11 x ^^^ rotr32 25 x

/-- SHA-256 choice function. -/
def shaCh (x y z : Nat) : Nat := x &&& y ^^^ (x ^^^ 4294967295) &&& z

/-- SHA-256 majority function. -/
def shaMaj (x y z : Nat) : Nat := x &&& y ^^^ x &&& z ^^^ y &&& z

/-- FIPS 180-4 padding: a 0x80 byte, zeros to 56 mod 64, then the bit
length as 8 big-endian bytes. -/
def sha256Pad (msg : List Nat) : List Nat :=
  let z := (119 - msg.length % 64) % 64
  msg ++ [128] ++ List.replicate z 0 ++
    (List.range 8).map (fun i => msg.length * 8 / 2 ^ ((7 - i) * 8) % 256)

/-- Big-endian 32-bit words from a byte list. -/
def bytesToWords : List Nat → List Nat
  | a :: b :: c :: d :: rest =>
    (((a * 256 + b) * 256 + c) * 256 + d) :: bytesToWords rest
  | _ => []

/-- Extends a 16-word message schedule by the given number of words. -/
def extendSchedule : Nat → List Nat → List Nat
  | 0, ws => ws
  | n + 1, ws =>
    let k := ws.length
    let w := w32 (ssig1 (ws.getD (k - 2) 0) + ws.getD (k - 7) 0 +
      ssig0 (ws.getD (k - 15) 0) + ws.getD (k - 16) 0)
    extendSchedule n (ws ++ [w])

/-- One SHA-256 round on the 8-word working state. -/
def sha256Round (st : List Nat) (wt kt : Nat) : List Nat :=
  match st with
  | [a, b, c, d, e, f, g, h] =>
    let t1 := w32 (h + bsig1 e + shaCh e f g + kt + wt)
    let t2 := w32 (bsig0 a + shaMaj a b c)
    [w32 (t1 + t2), a, b, c, w32 (d + t1), e, f, g]
  | other => other

/-- SHA-256 compression of one 64-byte block into the running hash. -/
def sha256Compress (h : List Nat) (block : List Nat) : List Nat :=
  let ws := extendSchedule 48 (bytesToWords block)
  let st := (ws.zip sha256K).foldl (fun s p => sha256Round s p.1 p.2) h
  h.zipWith (fun x y => w32 (x + y)) st

/-- SHA-256 digest of a byte list, as 32 bytes. -/
def sha256Bytes (msg : List Nat) : List Nat :=
  let padded := sha256Pad msg
  let final := (List.range (padded.length / 64)).foldl
    (fun h i => sha256Compress h ((padded.drop (64 * i)).take 64)) sha256H0
  final.flatMap
    (fun w => [w / 16777216 % 256, w / 65536 % 256, w / 256 % 256, w % 256])

/-- One lower-case hex digit. -/
def hexDigit (n : Nat) : Char :=
  if n < 10 then Char.ofNat (48 + n) else Char.ofNat (87 + n)

/-- `fmt.Sprintf` `%x` of the 32-byte digest: lower-case hex. -/
def sha256Hex (s : String) : String :=
  String.mk ((sha256Bytes (strBytes s)).flatMap
    (fun b => [hexDigit (b / 16), hexDigit (b % 16)]))

/-- JSON string literal (quote and escape; the fields exercised here are
plain text, so only the backslash and quote escapes of `encoding/json`
are modelled). -/
def jsonString (s : String) : String :=
  "\"" ++ String.mk (s.data.flatMap (fun c =>
    if c = '"' ∨ c = '\\' then ['\\', c] else [c])) ++ "\""

/-- JSON array of strings, compact as `json.Marshal` emits it. -/
def jsonStringArray (xs : List String) : String :=
  "[" ++ String.intercalate "," (xs.map jsonString) ++ "]"

/-- Modelled from the spec: `json.Marshal` of the generated
`db_queries.ShoppingList` row (the generated queries package is not part
of the sources); a compact JSON object over the row fields
`{id, name, items, created_at, updated_at}` of the data model, with the
timestamps rendered as quoted instants.  Every claim uses it only as a
fixed deterministic serialization. -/
def marshalShoppingList (r : ShoppingList) : String :=
  "\x7b\"id\":" ++ jsonString r.id ++
    ",\"name\":" ++ jsonString r.name ++
    ",\"items\":" ++ jsonStringArray r.items ++
    ",\"created_at\":\"" ++ toString r.createdAt ++
    "\",\"updated_at\":\"" ++ toString r.updatedAt ++ "\"\x7d"

/-- An HTTP response as the handlers build it: status code, the headers
the handler set, and the body bytes it wrote. -/
structure HttpResponse where
  status : Nat
  headers : List (String × String)
  body : String
deriving DecidableEq, Repr

/-- The mutable state a handler touches: the List Store table and the
LRU response cache. -/
structure AppState where
  store : List ShoppingList
  cache : LruCache
deriving DecidableEq, Repr

/-- The request body, after `json.NewDecoder(r.Body).Decode`: `none`
models a body that fails to decode. -/
abbrev Decoded (α : Type) := Option α

/-- Request body of `POST /v1/lists`. -/
structure CreateShoppingListRequest where
  name : String
  items : List String
deriving DecidableEq, Repr

/-- Request body of `PUT /v1/lists/(id)`. -/
structure updateListRequest where
  name : String
  items : List String
deriving DecidableEq, Repr

/-- Request body of `PATCH /v1/lists/(id)`: pointer fields, `none` when
the JSON field is absent. -/
structure ShoppingListPatch where
  name : Option String
  items : Option (List String)
deriving DecidableEq, Repr

/-- Request body of `POST /v1/lists/(id)/push`. -/
structure ListPushAction where
  item : String
deriving DecidableEq, Repr

/-- Request body of `POST /v1/login`. -/
structure LoginRequest where
  username : String
  password : String
deriving DecidableEq, Repr

/-- `handleCreateList`: 400 on a body that fails to decode (before any
repository call); otherwise inserts a fresh row (the store assigns
`newId` and the timestamps) and answers 201 with the created row.  The
third component counts repository calls. -/
def handleCreateList (st : AppState) (body : Decoded CreateShoppingListRequest)
    (newId : String) (now : Int) : HttpResponse × AppState × Nat :=
  match body with
  | none => (⟨400, [], "bad request"⟩, st, 0)
  | some b =>
    let r : ShoppingList := ⟨newId, b.name, b.items, now, now⟩
    (⟨201, [], marshalShoppingList r⟩, ⟨st.store ++ [r], st.cache⟩, 1)

/-- `handleUpdateList`: 400 on a decode failure (no repository call);
otherwise a full update through the repository — 500 on failure, and on
success the cache entry for the path id is removed before the 200
response is encoded. -/
def handleUpdateList (st : AppState) (id : String)
    (body : Decoded updateListRequest) (now : Int) :
    HttpResponse × AppState × Nat :=
  match body with
  | none => (⟨400, [], "bad request"⟩, st, 0)
  | some b =>
    match UpdateShoppingListByID st.store id b.name b.items now with
    | none => (⟨500, [], "update error"⟩, st, 1)
    | some (r2, rows2) =>
      (⟨200, [], marshalShoppingList r2⟩, ⟨rows2, lruRemove st.cache id⟩, 1)

/-- `handlePatchList`: 400 (`invalid data`) on a decode failure (no
repository call); otherwise `PartialUpdate` — 404 on failure, and on
success the cache entry for the path id is removed before the 200
response. -/
def handlePatchList (st : AppState) (id : String)
    (body : Decoded ShoppingListPatch) (now : Int) :
    HttpResponse × AppState × Nat :=
  match body with
  | none => (⟨400, [], "invalid data"⟩, st, 0)
  | some p =>
    match PartialUpdate st.store id p.name p.items now with
    | none => (⟨404, [], "list not found"⟩, st, 1)
    | some (r2, rows2) =>
      (⟨200, [], marshalShoppingList r2⟩, ⟨rows2, lruRemove st.cache id⟩, 1)

/-- `handleDeleteList`: deletes through the repository (500 on an
invalid id), removes the cache entry, answers 204 with an empty body. -/
def handleDeleteList (st : AppState) (id : String) :
    HttpResponse × AppState × Nat :=
  match DeleteShoppingListByID st.store id with
  | none => (⟨500, [], "list not found"⟩, st, 1)
  | some rows2 => (⟨204, [], ""⟩, ⟨rows2, lruRemove st.cache id⟩, 1)

/-- `handleListPush`: 400 (`invalid data`) on a decode failure (no
repository call); otherwise the atomic server-side append — 404 on
failure, 200 with the updated row on success.  Note: no cache
removal occurs on this path. -/
def handleListPush (st : AppState) (id : String)
    (body : Decoded ListPushAction) (now : Int) :
    HttpResponse × AppState × Nat :=
  match body with
  | none => (⟨400, [], "invalid data"⟩, st, 0)
  | some a =>
    match PushItemToShoppingList st.store id a.item now with
    | none => (⟨404, [], "list not found"⟩, st, 1)
    | some (r2, rows2) =>
      (⟨200, [], marshalShoppingList r2⟩, ⟨rows2, st.cache⟩, 1)

/-- `handleGetList`: probes the LRU cache under the raw path id; on a
miss reads through the repository (500 on failure) and inserts the
record; sets `Cache-Control: no-cache`, computes the quoted hex SHA-256
etag of the marshalled record, answers 304 with an empty body when
`If-None-Match` equals the etag, else 200 with the `Etag` header and the
record.  The third component counts repository calls.
`handleGetListRespond` is the tail of the handler from the point where
the record is in hand. -/
def handleGetListRespond (rows : List ShoppingList) (cache : LruCache)
    (ifNoneMatch : String) (l : ShoppingList) (calls : Nat) :
    HttpResponse × AppState × Nat :=
  let data := marshalShoppingList l
  let etag := "\"" ++ sha256Hex data ++ "\""
  if ifNoneMatch == etag then
    (⟨304, [("Cache-Control", "no-cache")], ""⟩, ⟨rows, cache⟩, calls)
  else
    (⟨200, [("Cache-Control", "no-cache"), ("Etag", etag)], data⟩,
      ⟨rows, cache⟩, calls)

def handleGetList (st : AppState) (id : String) (ifNoneMatch : String) :
    HttpResponse × AppState × Nat :=
  match lruGet st.cache id with
  | (some l, cache1) => handleGetListRespond st.store cache1 ifNoneMatch l 0
  | (none, cache1) =>
    match GetShoppingListByID st.store id with
    | none => (⟨500, [], "get error"⟩, ⟨st.store, cache1⟩, 1)
    | some l =>
      handleGetListRespond st.store (lruAdd cache1 id l) ifNoneMatch l 1

/-- `handleLogin`: 500 on a decode failure (note: not 400; no repository
call); a username/password match against `allUsers` creates a session
row with a 7-day expiry (`AddSession`) and answers 200 with the token;
any mismatch answers 401. -/
def handleLogin (sessions : List SessionRow) (body : Decoded LoginRequest)
    (newToken : String) (now : Int) :
    HttpResponse × List SessionRow × Nat :=
  match body with
  | none => (⟨500, [], "decode error"⟩, sessions, 0)
  | some d =>
    match allUsers d.username with
    | some u =>
      if u.password == d.password then
        (⟨200, [("Content-Type", "application/json")],
            "\x7b\"token\":" ++ jsonString newToken ++ "\x7d"⟩,
          sessions ++ [⟨newToken, u.username, now + 604800⟩], 1)
      else (⟨401, [], "invalid credentials"⟩, sessions, 0)
    | none => (⟨401, [], "invalid credentials"⟩, sessions, 0)

/-- The `POST /v1/lists` route as wired in `main`:
`addCacheHeaders(authRequired(handleCreateList))` — note `authRequired`,
not `adminRequired`.  (`addCacheHeaders` only sets `Cache-Control` and
`Expires` response headers; it is transparent to status, body and
state.)  `none` models a panic in the middleware. -/
def createListEndpoint (sessions : List SessionRow) (st : AppState)
    (authHeader : String) (body : Decoded CreateShoppingListRequest)
    (newId : String) (now : Int) : Option (HttpResponse × AppState) :=
  match authRequired sessions authHeader with
  | .panicked => none
  | .responded s => some (⟨s, [], "unauthorized"⟩, st)
  | .passed _ =>
    let out := handleCreateList st body newId now
    some (out.1, out.2.1)

/-- The trusted origin allow-list of `enableCors`. -/
def trustedOrigins : List String :=
  ["http://localhost:9000", "http://localhost:9002", "http://localhost:3000"]

/-- The allowed method set of `enableCors`. -/
def allowedMethods : List String :=
  ["GET", "POST", "PUT", "PATCH", "DELETE", "OPTIONS"]

/-- The allowed header set of `enableCors`. -/
def allowedHeaders : List String :=
  ["Authorization", "Content-Type"]

/-- The headers `enableCors` has set once an origin matched the
allow-list: the two `Vary` entries plus `Access-Control-Allow-Origin`. -/
def corsOriginHeaders (origin : String) : List (String × String) :=
  [("Vary", "Origin"), ("Vary", "Access-Control-Request-Method"),
   ("Access-Control-Allow-Origin", origin)]

/-- The headers of a successful preflight answer. -/
def corsPreflightHeaders : List (String × String) :=
  [("Access-Control-Allow-Methods", "GET, POST, PUT, PATCH, DELETE, OPTIONS"),
   ("Access-Control-Allow-Headers", "Authorization, Content-Type"),
   ("Access-Control-Max-Age", "300")]

/-- Go `strings.Split(s, ",")` on character lists. -/
def splitCommaAux : List Char → List Char → List (List Char)
  | [], acc => [acc.reverse]
  | c :: cs, acc =>
    if c = ',' then acc.reverse :: splitCommaAux cs []
    else splitCommaAux cs (c :: acc)

/-- Go `strings.Split(s, ",")`. -/
def goSplitComma (s : String) : List String :=
  (splitCommaAux s.data []).map String.mk

/-- A whitespace character as Go `strings.TrimSpace` treats ASCII
input. -/
def isSpaceChar (c : Char) : Bool :=
  c = ' ' ∨ c = '\t' ∨ c = '\n' ∨ c = '\x0b' ∨ c = '\x0c' ∨ c = '\r'

/-- Go `strings.TrimSpace`. -/
def trimSpace (s : String) : String :=
  String.mk (((s.data.dropWhile isSpaceChar).reverse.dropWhile
    isSpaceChar).reverse)

/-- The header loop of the preflight branch: splits
`Access-Control-Request-Headers` on commas, trims each entry, and
rejects as soon as one is outside the allowed header set (skipped when
the header is empty). -/
def corsDisallowedHeader (acrh : String) : Bool :=
  if acrh != "" then
    ((goSplitComma acrh).map trimSpace).any
      (fun h => !(allowedHeaders.contains h))
  else false

/-- Outcome of the CORS middleware: either it answered the request
itself (a preflight answer or rejection; the inner handler is not
invoked), or it forwarded to the inner handler with the response headers
set so far. -/
inductive CorsResult where
  | answered : Nat → List (String × String) → CorsResult
  | forward : List (String × String) → CorsResult
deriving DecidableEq, Repr

/-- `enableCors` of `src/main.go`, as a function of the request method
and the `Origin`, `Access-Control-Request-Method` and
`Access-Control-Request-Headers` headers (an absent header reads as the
empty string, as with Go `Header.Get`). -/
def enableCors (method origin acrm acrh : String) : CorsResult :=
  let varyHeaders :=
    [("Vary", "Origin"), ("Vary", "Access-Control-Request-Method")]
  if origin == "" then .forward varyHeaders
  else if trustedOrigins.contains origin then
    if method == "OPTIONS" && acrm != "" then
      if !(allowedMethods.contains acrm) then
        .answered 405 (corsOriginHeaders origin)
      else if corsDisallowedHeader acrh then
        .answered 403 (corsOriginHeaders origin)
      else
        .answered 200 (corsOriginHeaders origin ++ corsPreflightHeaders)
    else .forward (corsOriginHeaders origin)
  else .forward varyHeaders

theorem find?_filter_ne_none (l : List (String × ShoppingList)) (k : String) :
    (l.filter (fun x => x.1 != k)).find? (fun e => e.1 == k) = none := by
  induction l with
  | nil => rfl
  | cons a t ih =>
    by_cases h : a.1 = k
    · simp [List.filter, h, ih]
    · have hne : (a.1 != k) = true := by simp [bne_iff_ne, h]
      have heq : (a.1 == k) = false := by simp [h]
      simp [List.filter, hne, List.find?, heq, ih]

theorem lruContains_lruRemove (c : LruCache) (k : String) :
    lruContains (lruRemove c k) k = false := by
  simp [lruContains, lruRemove, find?_filter_ne_none]

theorem lruGet_of_not_contains (c : LruCache) (k : String)
    (h : lruContains c k = false) : lruGet c k = (none, c) := by
  have hf : c.entries.find? (fun e => e.1 == k) = none := by
    simpa [lruContains] using h
  simp [lruGet, hf]

theorem lruGet_fst_lruAdd (c : LruCache) (k : String) (v : ShoppingList)
    (h : 0 < c.cap) : (lruGet (lruAdd c k v) k).1 = some v := by
  unfold lruGet lruAdd
  simp only
  by_cases hlen :
      c.cap < ((k, v) :: c.entries.filter (fun x => x.1 != k)).length
  · rw [if_pos hlen]
    rcases hfil : c.entries.filter (fun x => x.1 != k) with _ | ⟨b, t⟩
    · rw [hfil] at hlen
      simp at hlen
      omega
    · rw [hfil]
      have : ((k, v) :: b :: t).dropLast = (k, v) :: (b :: t).dropLast := rfl
      rw [this]
      simp [List.find?]
  · rw [if_neg hlen]
    simp [List.find?]

theorem empty_beq_quoted (s : String) :
    (("" : String) == "\"" ++ s ++ "\"") = false := by
  rw [beq_eq_false_iff_ne]
  intro h
  have hlen := congrArg String.length h
  rw [String.length_append, String.length_append] at hlen
  have h1 : ("" : String).length = 0 := rfl
  have h2 : ("\"" : String).length = 1 := rfl
  omega

theorem lruContains_eq_isSome (c : LruCache) (k : String) :
    lruContains c k = (lruGet c k).1.isSome := by
  unfold lruContains lruGet
  rcases h : c.entries.find? (fun e => e.1 == k) <;> simp [h]

theorem authRequired_passed (sessions : List SessionRow) (hdr tok : String)
    (s : SessionRow) (hp : goHasPre "Bearer" hdr = true)
    (hs : goSliceFrom hdr 7 = some tok)
    (hfind : GetSessionByToken sessions tok = some s) :
    authRequired sessions hdr = .passed tok := by
  simp [authRequired, hp, hs, hfind]

/-- C10: the claim says the auth middleware handles every
`Authorization` header totally, in particular answering 401 for the
header consisting of exactly `Bearer`; in fact that header passes the
`HasPrefix` check and the subsequent `token[7:]` slice is out of range
(7 > 6), a runtime panic, so no HTTP response is produced by the
middleware at all.  This evaluates the embedded middleware at that
header. -/
theorem c10_bearer_exact_panics :
    authRequired [] "Bearer" = .panicked ∧
    goHasPre "Bearer" "Bearer" = true ∧ goSliceFrom "Bearer" 7 = none := by
  decide

/-- C3: the claim says an admin-gated request whose session username
resolves to no user still gets 403; in fact `adminRequired` dereferences
the nil `allUsers` lookup (`user.Role`), a nil-pointer panic, so the
request gets no 403 response.  This evaluates the embedded middleware on
a stored session for username `ghost`, which is not a user. -/
theorem c3_admin_missing_user_panics :
    adminRequired [⟨"t0", "ghost", 5⟩] "Bearer t0" = .panicked ∧
    allUsers "ghost" = none ∧
    adminRequired [⟨"t0", "ghost", 5⟩] "Bearer t0" ≠ .responded 403 := by
  decide

/-- C4 counterexample: a stored session whose `expires_at` (-1) lies in
the past of the instant 0 still authenticates — `authRequired` invokes
the wrapped handler instead of answering 401, because the session lookup
matches on the token alone. -/
theorem c4_expired_session_passes_counterexample :
    ((-1 : Int) < 0) ∧
    authRequired [⟨"t1", "user", -1⟩] "Bearer t1" = .passed "t1" ∧
    authRequired [⟨"t1", "user", -1⟩] "Bearer t1" ≠ .responded 401 := by
  decide

/-- C4 amended: for every request to an authenticated route whose bearer
token matches a stored session, the middleware invokes the wrapped
handler regardless of the session's `expires_at` — the session SQL
(`WHERE token = $1`) never consults expiry, so an expired session is not
rejected with 401. -/
theorem c4_auth_ignores_expiry (sessions : List SessionRow)
    (hdr tok : String) (s : SessionRow)
    (hp : goHasPre "Bearer" hdr = true)
    (hs : goSliceFrom hdr 7 = some tok)
    (hfind : GetSessionByToken sessions tok = some s) :
    authRequired sessions hdr = .passed tok :=
  authRequired_passed sessions hdr tok s hp hs hfind

/-- C4 witness: the amended theorem applied to a concrete expired
session. -/
theorem c4_auth_ignores_expiry_witness :
    goHasPre "Bearer" "Bearer tt" = true ∧
    goSliceFrom "Bearer tt" 7 = some "tt" ∧
    GetSessionByToken [⟨"tt", "admin", -7⟩] "tt" = some ⟨"tt", "admin", -7⟩ ∧
    authRequired [⟨"tt", "admin", -7⟩] "Bearer tt" = .passed "tt" :=
  ⟨by decide, by decide, by decide,
    c4_auth_ignores_expiry [⟨"tt", "admin", -7⟩] "Bearer tt" "tt"
      ⟨"tt", "admin", -7⟩ (by decide) (by decide) (by decide)⟩

/-- C2 counterexample: a request bearing a valid session of the
non-admin user `user` to `POST /v1/lists` is not rejected with 403: the
route is wired through `authRequired` only, so the request is answered
201 and a list is created. -/
theorem c2_nonadmin_create_201_counterexample :
    (allUsers "user").map User.role = some "user" ∧
    (createListEndpoint [⟨"t2", "user", 9⟩] ⟨[], listsCacheNew⟩ "Bearer t2"
        (some ⟨"groceries", ["milk"]⟩)
        "22222222-2222-2222-2222-222222222222" 7).map
      (fun p => (p.1.status, p.2.store.length)) = some (201, 1) := by
  decide

/-- C2 amended: `POST /v1/lists` is gated by `authRequired` alone: every
request whose bearer token matches a stored session — whatever the
session user's role — and whose body decodes is answered 201, with the
created list appended to the store; no role check occurs on this
route. -/
theorem c2_create_auth_only (sessions : List SessionRow) (st : AppState)
    (hdr tok : String) (s : SessionRow) (b : CreateShoppingListRequest)
    (newId : String) (now : Int)
    (hp : goHasPre "Bearer" hdr = true)
    (hs : goSliceFrom hdr 7 = some tok)
    (hfind : GetSessionByToken sessions tok = some s) :
    createListEndpoint sessions st hdr (some b) newId now =
      some (⟨201, [], marshalShoppingList ⟨newId, b.name, b.items, now, now⟩⟩,
        ⟨st.store ++ [⟨newId, b.name, b.items, now, now⟩], st.cache⟩) := by
  rw [createListEndpoint, authRequired_passed sessions hdr tok s hp hs hfind]
  simp [handleCreateList]

/-- C2 witness: the amended theorem applied to a concrete non-admin
session. -/
theorem c2_create_auth_only_witness :
    goHasPre "Bearer" "Bearer t2" = true ∧
    goSliceFrom "Bearer t2" 7 = some "t2" ∧
    GetSessionByToken [⟨"t2", "user", 9⟩] "t2" = some ⟨"t2", "user", 9⟩ ∧
    createListEndpoint [⟨"t2", "user", 9⟩] ⟨[], listsCacheNew⟩ "Bearer t2"
        (some ⟨"g", ["m"]⟩) "22222222-2222-2222-2222-222222222222" 7 =
      some (⟨201, [], marshalShoppingList
          ⟨"22222222-2222-2222-2222-222222222222", "g", ["m"], 7, 7⟩⟩,
        ⟨[⟨"22222222-2222-2222-2222-222222222222", "g", ["m"], 7, 7⟩],
          listsCacheNew⟩) :=
  ⟨by decide, by decide, by decide, by
    have := c2_create_auth_only [⟨"t2", "user", 9⟩] ⟨[], listsCacheNew⟩
      "Bearer t2" "t2" ⟨"t2", "user", 9⟩ ⟨"g", ["m"]⟩
      "22222222-2222-2222-2222-222222222222" 7
      (by decide) (by decide) (by decide)
    simpa using this⟩

/-- C1 counterexample: a successful item push (200) to a list whose id
is in the response cache leaves the cache entry in place —
`handleListPush` performs no `ListsCache.Remove` — so at the moment the
push response is sent the cache still holds the pre-push snapshot and a
subsequent GET observes a snapshot older than the mutation. -/
theorem c1_push_keeps_cache_counterexample :
    ((handleListPush
        ⟨[⟨"33333333-3333-3333-3333-333333333333", "g", ["milk"], 1, 1⟩],
          ⟨[("33333333-3333-3333-3333-333333333333",
            ⟨"33333333-3333-3333-3333-333333333333", "g", ["milk"], 1, 1⟩)],
            128⟩⟩
        "33333333-3333-3333-3333-333333333333" (some ⟨"eggs"⟩) 9).1.status
      = 200) ∧
    lruContains
      (handleListPush
        ⟨[⟨"33333333-3333-3333-3333-333333333333", "g", ["milk"], 1, 1⟩],
          ⟨[("33333333-3333-3333-3333-333333333333",
            ⟨"33333333-3333-3333-3333-333333333333", "g", ["milk"], 1, 1⟩)],
            128⟩⟩
        "33333333-3333-3333-3333-333333333333" (some ⟨"eggs"⟩) 9).2.1.cache
      "33333333-3333-3333-3333-333333333333" = true := by
  decide

/-- C1 amended: every successful full update (PUT, 200), partial update
(PATCH, 200) and delete (DELETE, 204) for a list id removes that id from
the response cache before the response is sent; the item push route is
the exception — it does not evict (see the counterexample). -/
theorem c1_mutation_evicts_cache (st : AppState) (id uid : String)
    (r : ShoppingList) (b : updateListRequest) (p : ShoppingListPatch)
    (now : Int)
    (hu : parseUUID id = some uid)
    (hr : st.store.find? (fun x => x.id == uid) = some r) :
    ((handleUpdateList st id (some b) now).1.status = 200 ∧
      lruContains (handleUpdateList st id (some b) now).2.1.cache id
        = false) ∧
    ((handlePatchList st id (some p) now).1.status = 200 ∧
      lruContains (handlePatchList st id (some p) now).2.1.cache id
        = false) ∧
    ((handleDeleteList st id).1.status = 204 ∧
      lruContains (handleDeleteList st id).2.1.cache id = false) := by
  refine ⟨⟨?_, ?_⟩, ⟨?_, ?_⟩, ⟨?_, ?_⟩⟩ <;>
    simp [handleUpdateList, handlePatchList, handleDeleteList,
      UpdateShoppingListByID, PartialUpdate, DeleteShoppingListByID,
      sqlUpdateShoppingListByID, sqlShoppingListPartialUpdate,
      hu, hr, lruContains_lruRemove]

/-- C1 witness: the amended theorem applied to a concrete store, cache
and id. -/
theorem c1_mutation_evicts_cache_witness :
    parseUUID "33333333-3333-3333-3333-333333333333"
        = some "33333333-3333-3333-3333-333333333333" ∧
    ([⟨"33333333-3333-3333-3333-333333333333", "g", ["milk"], 1, 1⟩] :
        List ShoppingList).find?
        (fun x => x.id == "33333333-3333-3333-3333-333333333333")
      = some ⟨"33333333-3333-3333-3333-333333333333", "g", ["milk"], 1, 1⟩ ∧
    lruContains
      (handleUpdateList
        ⟨[⟨"33333333-3333-3333-3333-333333333333", "g", ["milk"], 1, 1⟩],
          ⟨[("33333333-3333-3333-3333-333333333333",
            ⟨"33333333-3333-3333-3333-333333333333", "g", ["milk"], 1, 1⟩)],
            128⟩⟩
        "33333333-3333-3333-3333-333333333333" (some ⟨"n", ["i"]⟩)
        9).2.1.cache
      "33333333-3333-3333-3333-333333333333" = false := by
  refine ⟨by decide, by decide, ?_⟩
  exact (c1_mutation_evicts_cache
    ⟨[⟨"33333333-3333-3333-3333-333333333333", "g", ["milk"], 1, 1⟩],
      ⟨[("33333333-3333-3333-3333-333333333333",
        ⟨"33333333-3333-3333-3333-333333333333", "g", ["milk"], 1, 1⟩)],
        128⟩⟩
    "33333333-3333-3333-3333-333333333333"
    "33333333-3333-3333-3333-333333333333"
    ⟨"33333333-3333-3333-3333-333333333333", "g", ["milk"], 1, 1⟩
    ⟨"n", ["i"]⟩ ⟨none, some ["x"]⟩ 9 (by decide) (by decide)).1.2

theorem handleGetList_miss (st : AppState) (id : String) (rec : ShoppingList)
    (inm : String)
    (hmiss : lruContains st.cache id = false)
    (hget : GetShoppingListByID st.store id = some rec) :
    handleGetList st id inm =
      handleGetListRespond st.store (lruAdd st.cache id rec) inm rec 1 := by
  have h1 := lruGet_of_not_contains st.cache id hmiss
  unfold handleGetList
  rw [h1]
  simp [hget]

theorem handleGetList_hit_add (rows : List ShoppingList) (c : LruCache)
    (id : String) (rec : ShoppingList) (inm : String) (hcap : 0 < c.cap) :
    handleGetList ⟨rows, lruAdd c id rec⟩ id inm =
      handleGetListRespond rows (lruGet (lruAdd c id rec) id).2 inm rec 0 := by
  rcases hx : lruGet (lruAdd c id rec) id with ⟨o, c2⟩
  have hfst : o = some rec := by
    have h := lruGet_fst_lruAdd c id rec hcap
    rw [hx] at h
    exact h
  subst hfst
  unfold handleGetList
  simp only [hx]

theorem respond_fresh (rows : List ShoppingList) (cache : LruCache)
    (rec : ShoppingList) (n : Nat) :
    handleGetListRespond rows cache "" rec n =
      (⟨200, [("Cache-Control", "no-cache"),
          ("Etag", "\"" ++ sha256Hex (marshalShoppingList rec) ++ "\"")],
        marshalShoppingList rec⟩, ⟨rows, cache⟩, n) := by
  simp [handleGetListRespond, empty_beq_quoted]

theorem respond_not_modified (rows : List ShoppingList) (cache : LruCache)
    (rec : ShoppingList) (n : Nat) :
    handleGetListRespond rows cache
        ("\"" ++ sha256Hex (marshalShoppingList rec) ++ "\"") rec n =
      (⟨304, [("Cache-Control", "no-cache")], ""⟩, ⟨rows, cache⟩, n) := by
  simp [handleGetListRespond]

/-- C5: for an id with no cached entry, a single-item GET performs
exactly one store read, returns the stored record, and inserts it into
the LRU cache (of the configured capacity 128); an immediately following
GET of the same id performs zero store reads and returns the same
(cached) record. -/
theorem c5_get_list_cache_population (st : AppState) (id : String)
    (rec : ShoppingList)
    (hcap : st.cache.cap = listsCacheCap)
    (hmiss : lruContains st.cache id = false)
    (hget : GetShoppingListByID st.store id = some rec) :
    (handleGetList st id "").2.2 = 1 ∧
    (handleGetList st id "").1.status = 200 ∧
    (handleGetList st id "").1.body = marshalShoppingList rec ∧
    lruContains (handleGetList st id "").2.1.cache id = true ∧
    (handleGetList (handleGetList st id "").2.1 id "").2.2 = 0 ∧
    (handleGetList (handleGetList st id "").2.1 id "").1.body
      = marshalShoppingList rec := by
  have hcap0 : 0 < st.cache.cap := by rw [hcap]; decide
  rw [handleGetList_miss st id rec "" hmiss hget, respond_fresh]
  rw [handleGetList_hit_add st.store st.cache id rec "" hcap0, respond_fresh]
  refine ⟨rfl, rfl, rfl, ?_, rfl, rfl⟩
  rw [lruContains_eq_isSome, lruGet_fst_lruAdd st.cache id rec hcap0]
  rfl

/-- C5 witness: the theorem applied to a one-row store and the fresh
128-capacity cache. -/
theorem c5_get_list_cache_population_witness :
    listsCacheNew.cap = listsCacheCap ∧
    lruContains listsCacheNew "44444444-4444-4444-4444-444444444444"
      = false ∧
    GetShoppingListByID
        [⟨"44444444-4444-4444-4444-444444444444", "g", ["milk"], 1, 1⟩]
        "44444444-4444-4444-4444-444444444444"
      = some ⟨"44444444-4444-4444-4444-444444444444", "g", ["milk"], 1, 1⟩ ∧
    (handleGetList
        ⟨[⟨"44444444-4444-4444-4444-444444444444", "g", ["milk"], 1, 1⟩],
          listsCacheNew⟩
        "44444444-4444-4444-4444-444444444444" "").2.2 = 1 ∧
    (handleGetList
        (handleGetList
          ⟨[⟨"44444444-4444-4444-4444-444444444444", "g", ["milk"], 1, 1⟩],
            listsCacheNew⟩
          "44444444-4444-4444-4444-444444444444" "").2.1
        "44444444-4444-4444-4444-444444444444" "").2.2 = 0 := by
  refine ⟨rfl, by decide, by decide, ?_, ?_⟩
  · exact (c5_get_list_cache_population
      ⟨[⟨"44444444-4444-4444-4444-444444444444", "g", ["milk"], 1, 1⟩],
        listsCacheNew⟩
      "44444444-4444-4444-4444-444444444444"
      ⟨"44444444-4444-4444-4444-444444444444", "g", ["milk"], 1, 1⟩
      rfl (by decide) (by decide)).1
  · exact (c5_get_list_cache_population
      ⟨[⟨"44444444-4444-4444-4444-444444444444", "g", ["milk"], 1, 1⟩],
        listsCacheNew⟩
      "44444444-4444-4444-4444-444444444444"
      ⟨"44444444-4444-4444-4444-444444444444", "g", ["milk"], 1, 1⟩
      rfl (by decide) (by decide)).2.2.2.2.1

/-- C6: for a list id present in the store (and not yet cached), a GET
answers 200 with `Cache-Control: no-cache` and an `Etag` header equal to
the quoted lower-case hex SHA-256 digest of the serialized record; a
second GET of the same id whose `If-None-Match` equals that exact Etag
value, with no intervening mutation, answers 304 with an empty body. -/
theorem c6_conditional_get_etag (st : AppState) (id : String)
    (rec : ShoppingList)
    (hcap : st.cache.cap = listsCacheCap)
    (hmiss : lruContains st.cache id = false)
    (hget : GetShoppingListByID st.store id = some rec) :
    (handleGetList st id "").1.status = 200 ∧
    (handleGetList st id "").1.headers =
      [("Cache-Control", "no-cache"),
       ("Etag", "\"" ++ sha256Hex (marshalShoppingList rec) ++ "\"")] ∧
    (handleGetList st id "").1.body = marshalShoppingList rec ∧
    (handleGetList (handleGetList st id "").2.1 id
        ("\"" ++ sha256Hex (marshalShoppingList rec) ++ "\"")).1.status
      = 304 ∧
    (handleGetList (handleGetList st id "").2.1 id
        ("\"" ++ sha256Hex (marshalShoppingList rec) ++ "\"")).1.body
      = "" := by
  have hcap0 : 0 < st.cache.cap := by rw [hcap]; decide
  rw [handleGetList_miss st id rec "" hmiss hget, respond_fresh]
  rw [handleGetList_hit_add st.store st.cache id rec
    ("\"" ++ sha256Hex (marshalShoppingList rec) ++ "\"") hcap0,
    respond_not_modified]
  exact ⟨rfl, rfl, rfl, rfl, rfl⟩

/-- C6 witness: the theorem applied to a one-row store and the fresh
128-capacity cache. -/
theorem c6_conditional_get_etag_witness :
    (⟨[⟨"55555555-5555-5555-5555-555555555555", "g", ["milk"], 1, 1⟩],
        listsCacheNew⟩ : AppState).cache.cap = listsCacheCap ∧
    lruContains listsCacheNew "55555555-5555-5555-5555-555555555555"
      = false ∧
    GetShoppingListByID
        [⟨"55555555-5555-5555-5555-555555555555", "g", ["milk"], 1, 1⟩]
        "55555555-5555-5555-5555-555555555555"
      = some ⟨"55555555-5555-5555-5555-555555555555", "g", ["milk"], 1, 1⟩ ∧
    (handleGetList
        ⟨[⟨"55555555-5555-5555-5555-555555555555", "g", ["milk"], 1, 1⟩],
          listsCacheNew⟩
        "55555555-5555-5555-5555-555555555555" "").1.status = 200 ∧
    (handleGetList
        (handleGetList
          ⟨[⟨"55555555-5555-5555-5555-555555555555", "g", ["milk"], 1, 1⟩],
            listsCacheNew⟩
          "55555555-5555-5555-5555-555555555555" "").2.1
        "55555555-5555-5555-5555-555555555555"
        ("\"" ++ sha256Hex (marshalShoppingList
          ⟨"55555555-5555-5555-5555-555555555555", "g", ["milk"], 1, 1⟩)
          ++ "\"")).1.status = 304 := by
  refine ⟨rfl, by decide, by decide, ?_, ?_⟩
  · exact (c6_conditional_get_etag
      ⟨[⟨"55555555-5555-5555-5555-555555555555", "g", ["milk"], 1, 1⟩],
        listsCacheNew⟩
      "55555555-5555-5555-5555-555555555555"
      ⟨"55555555-5555-5555-5555-555555555555", "g", ["milk"], 1, 1⟩
      rfl (by decide) (by decide)).1
  · exact (c6_conditional_get_etag
      ⟨[⟨"55555555-5555-5555-5555-555555555555", "g", ["milk"], 1, 1⟩],
        listsCacheNew⟩
      "55555555-5555-5555-5555-555555555555"
      ⟨"55555555-5555-5555-5555-555555555555", "g", ["milk"], 1, 1⟩
      rfl (by decide) (by decide)).2.2.2.1

/-- C7: a PATCH whose body carries `items` but no `name` leaves the
stored name unchanged and replaces the stored items exactly; a PATCH
whose body carries `name = ""` leaves the stored name unchanged (the
empty string is bound as SQL NULL, i.e. treated as not provided). -/
theorem c7_patch_merge_semantics (rows : List ShoppingList) (id uid : String)
    (r : ShoppingList) (its : List String) (itemsOpt : Option (List String))
    (now : Int)
    (hu : parseUUID id = some uid)
    (hr : rows.find? (fun x => x.id == uid) = some r) :
    PartialUpdate rows id none (some its) now =
      some ({ r with items := its, updatedAt := now },
        rows.map (fun x =>
          if x.id == uid then { r with items := its, updatedAt := now }
          else x)) ∧
    PartialUpdate rows id (some "") itemsOpt now =
      some ({ r with items := itemsOpt.getD r.items, updatedAt := now },
        rows.map (fun x =>
          if x.id == uid then
            { r with items := itemsOpt.getD r.items, updatedAt := now }
          else x)) := by
  constructor <;> simp [PartialUpdate, hu, sqlShoppingListPartialUpdate, hr]

/-- C7 witness: the theorem applied to a one-row store; the projections
show the name surviving both patches and the items being replaced
exactly. -/
theorem c7_patch_merge_semantics_witness :
    parseUUID "66666666-6666-6666-6666-666666666666"
      = some "66666666-6666-6666-6666-666666666666" ∧
    ([⟨"66666666-6666-6666-6666-666666666666", "g", ["milk"], 1, 1⟩] :
        List ShoppingList).find?
        (fun x => x.id == "66666666-6666-6666-6666-666666666666")
      = some ⟨"66666666-6666-6666-6666-666666666666", "g", ["milk"], 1, 1⟩ ∧
    (PartialUpdate
        [⟨"66666666-6666-6666-6666-666666666666", "g", ["milk"], 1, 1⟩]
        "66666666-6666-6666-6666-666666666666" none (some ["a", "b"]) 9).map
      (fun p => (p.1.name, p.1.items)) = some ("g", ["a", "b"]) ∧
    (PartialUpdate
        [⟨"66666666-6666-6666-6666-666666666666", "g", ["milk"], 1, 1⟩]
        "66666666-6666-6666-6666-666666666666" (some "") none 9).map
      (fun p => (p.1.name, p.1.items)) = some ("g", ["milk"]) := by
  refine ⟨by decide, by decide, ?_, ?_⟩
  · have h := (c7_patch_merge_semantics
      [⟨"66666666-6666-6666-6666-666666666666", "g", ["milk"], 1, 1⟩]
      "66666666-6666-6666-6666-666666666666"
      "66666666-6666-6666-6666-666666666666"
      ⟨"66666666-6666-6666-6666-666666666666", "g", ["milk"], 1, 1⟩
      ["a", "b"] none 9 (by decide) (by decide)).1
    rw [h]
    rfl
  · have h := (c7_patch_merge_semantics
      [⟨"66666666-6666-6666-6666-666666666666", "g", ["milk"], 1, 1⟩]
      "66666666-6666-6666-6666-666666666666"
      "66666666-6666-6666-6666-666666666666"
      ⟨"66666666-6666-6666-6666-666666666666", "g", ["milk"], 1, 1⟩
      ["a", "b"] none 9 (by decide) (by decide)).2
    rw [h]
    rfl

/-- C8 counterexample: an `OPTIONS` request with a present (but
untrusted) `Origin` and a disallowed requested method is not answered
405 — the middleware forwards it to the inner handler, because the
entire preflight branch is guarded by the trusted-origin check. -/
theorem c8_untrusted_origin_forward_counterexample :
    trustedOrigins.contains "http://evil.example" = false ∧
    allowedMethods.contains "TRACE" = false ∧
    enableCors "OPTIONS" "http://evil.example" "TRACE" "" =
      .forward [("Vary", "Origin"),
                ("Vary", "Access-Control-Request-Method")] := by
  decide

/-- C8 amended: for every preflight request (`OPTIONS`, nonempty
`Access-Control-Request-Method`) whose `Origin` is in the trusted
allow-list: a requested method outside the allowed set is answered 405;
otherwise any comma-separated, trimmed requested header outside the
allowed header set is answered 403; otherwise the answer is 200 carrying
`Access-Control-Allow-Methods`, `Access-Control-Allow-Headers` and
`Access-Control-Max-Age: 300` — in all three cases the middleware
answers itself (the inner handler is not invoked). -/
theorem c8_preflight_trusted_origin (origin acrm acrh : String)
    (hor : trustedOrigins.contains origin = true) (hm : acrm ≠ "") :
    (allowedMethods.contains acrm = false →
      enableCors "OPTIONS" origin acrm acrh =
        .answered 405 (corsOriginHeaders origin)) ∧
    (allowedMethods.contains acrm = true →
      corsDisallowedHeader acrh = true →
      enableCors "OPTIONS" origin acrm acrh =
        .answered 403 (corsOriginHeaders origin)) ∧
    (allowedMethods.contains acrm = true →
      corsDisallowedHeader acrh = false →
      enableCors "OPTIONS" origin acrm acrh =
        .answered 200 (corsOriginHeaders origin ++ corsPreflightHeaders)) := by
  have hmem : origin = "http://localhost:9000" ∨
      origin = "http://localhost:9002" ∨
      origin = "http://localhost:3000" := by
    simpa [trustedOrigins] using hor
  have hno : (origin == "") = false := by
    rcases hmem with rfl | rfl | rfl <;> decide
  have hintrust : origin ∈ trustedOrigins := by simpa using hor
  refine ⟨fun h1 => ?_, fun h1 h2 => ?_, fun h1 h2 => ?_⟩
  · have hnotm : acrm ∉ allowedMethods := by simpa using h1
    simp [enableCors, hno, hintrust, hm, hnotm]
  · have hinm : acrm ∈ allowedMethods := by simpa using h1
    simp [enableCors, hno, hintrust, hm, hinm, h2]
  · have hinm : acrm ∈ allowedMethods := by simpa using h1
    simp [enableCors, hno, hintrust, hm, hinm, h2]

/-- C8 witness: the amended theorem applied to a trusted origin with an
allowed method and a disallowed requested header (the 403 branch). -/
theorem c8_preflight_trusted_origin_witness :
    trustedOrigins.contains "http://localhost:3000" = true ∧
    "PUT" ≠ "" ∧
    allowedMethods.contains "PUT" = true ∧
    corsDisallowedHeader " X-Custom , Content-Type" = true ∧
    enableCors "OPTIONS" "http://localhost:3000" "PUT"
        " X-Custom , Content-Type" =
      .answered 403 (corsOriginHeaders "http://localhost:3000") :=
  ⟨by decide, by decide, by decide, by decide,
    (c8_preflight_trusted_origin "http://localhost:3000" "PUT"
      " X-Custom , Content-Type" (by decide) (by decide)).2.1
      (by decide) (by decide)⟩

/-- C9 counterexample: a login request whose body fails to decode is
answered 500, not 400. -/
theorem c9_login_decode_500_counterexample :
    (handleLogin [] none "tk" 0).1.status = 500 ∧
    (handleLogin [] none "tk" 0).1.status ≠ 400 := by
  decide

/-- C9 amended: a body that fails to decode makes the create, full
update, partial update and push handlers answer 400 and the login
handler answer 500, in every case before any store operation (zero
repository calls, state unchanged). -/
theorem c9_decode_failure_statuses (st : AppState) (id : String)
    (sessions : List SessionRow) (newId newToken : String) (now : Int) :
    handleCreateList st none newId now = (⟨400, [], "bad request"⟩, st, 0) ∧
    handleUpdateList st id none now = (⟨400, [], "bad request"⟩, st, 0) ∧
    handlePatchList st id none now = (⟨400, [], "invalid data"⟩, st, 0) ∧
    handleListPush st id none now = (⟨400, [], "invalid data"⟩, st, 0) ∧
    handleLogin sessions none newToken now =
      (⟨500, [], "decode error"⟩, sessions, 0) :=
  ⟨rfl, rfl, rfl, rfl, rfl⟩
